import Mathlib

/-!
Shallow embedding of the exclusion sub-reconciler of the fdb-kubernetes-operator
(`controllers/exclude_processes.go`) together with the backup reconciler's
client-provider lookup. Machine integers are modelled as `Int`; timestamps are
Unix seconds; the external admin-client, lock and resource-store calls are
modelled as oracle results supplied in an environment record.
-/

namespace FdbOperator

/-- Process classes of the cluster. The Go type is a string; the embedding
uses the classes that occur in the exclusion logic. -/
inductive ProcessClass
  | storage
  | log
  | transaction
  | stateless
  | general
  | test
deriving DecidableEq, Repr

/-- Enumeration of every process class, used as the (arbitrary but fixed)
iteration order standing in for Go's unspecified map iteration order. -/
def ProcessClass.all : List ProcessClass :=
  [.storage, .log, .transaction, .stateless, .general, .test]

/-- Modelled from the spec: `ProcessClass.IsTransaction` is declared in the API
package, which is not part of the sources at hand. The spec describes the
transaction subsystem as "coordinators/logs et al."; `storage` is explicitly a
non-transaction class, and the `test` and `general` classes serve no
transaction role. -/
def ProcessClass.isTransaction : ProcessClass → Bool
  | .log => true
  | .transaction => true
  | .stateless => true
  | _ => false

/-- One process group of the cluster status. The boolean fields are the values
of `IsMarkedForRemoval` and `IsExcluded`, `exclusionString` is the value of
`GetExclusionString`, and `missingTimestamp` is the value of
`GetConditionTime(MissingProcesses)` (Unix seconds). -/
structure ProcessGroup where
  processGroupID : String
  processClass : ProcessClass
  addresses : List String
  exclusionString : String
  markedForRemoval : Bool
  excluded : Bool
  missingTimestamp : Option Int
deriving DecidableEq, Repr

/-- The parts of the `FoundationDBCluster` resource that the exclusion
sub-reconciler reads. `syncGlobal` is true when `GetSynchronizationMode`
returns the global mode. -/
structure Cluster where
  processGroups : List ProcessGroup
  useLocalitiesForExclusion : Bool
  desiredFaultTolerance : Int
  syncGlobal : Bool
deriving DecidableEq, Repr

/-- Embedding of `getAllowedExclusions` (controllers/exclude_processes.go):
the number of exclusions allowed for one class, never negative. -/
def getAllowedExclusions (validProcesses desiredProcessCount ongoingExclusions faultTolerance : Int) : Int :=
  let allowedExclusions := validProcesses + faultTolerance - desiredProcessCount - ongoingExclusions
  if allowedExclusions < 0 then 0 else allowedExclusions

/-- Modelled from the spec: `coordination.IgnoreMissingProcessDuration` is
declared in the internal coordination package, which is not part of the sources
at hand. The spec fixes the missing-process grace window at 5 minutes; the
embedding measures time in seconds. -/
def ignoreMissingProcessDuration : Int := 300

/-- Scan of the cluster's process groups performed by
`getAllowedExclusionsAndMissingProcesses` for one process class. Returns the
collected missing process-group IDs, the count of valid processes, and the
`exclusionsAllowed` flag. `now` is the current Unix time, so `now - ts` is the
embedding of `time.Since(missingTime)` in seconds. -/
def classMissingScan (pc : ProcessClass) (inSimulation : Bool) (now : Int) :
    List ProcessGroup → List String × Int × Bool
  | [] => ([], 0, true)
  | pg :: rest =>
    let res := classMissingScan pc inSimulation now rest
    if pg.processClass != pc then res
    else if pg.markedForRemoval && pg.excluded then res
    else
      match pg.missingTimestamp with
      | some ts =>
        if !inSimulation then
          (pg.processGroupID :: res.1, res.2.1,
            res.2.2 && !(now - ts < ignoreMissingProcessDuration))
        else (res.1, res.2.1 + 1, res.2.2)
      | none => (res.1, res.2.1 + 1, res.2.2)

/-- Embedding of `getAllowedExclusionsAndMissingProcesses`
(controllers/exclude_processes.go): returns the allowed number of exclusions
for the class and the list of process groups with a `MissingProcesses`
condition. -/
def getAllowedExclusionsAndMissingProcesses (cluster : Cluster) (pc : ProcessClass)
    (desiredProcessCount ongoingExclusions : Int) (inSimulation : Bool) (now : Int) :
    Int × List String :=
  let res := classMissingScan pc inSimulation now cluster.processGroups
  if res.2.2 = false then (0, res.1)
  else
    (getAllowedExclusions res.2.1 desiredProcessCount ongoingExclusions
      cluster.desiredFaultTolerance, res.1)

/-- Specification-side count for C9: the process groups of the class that are
not both marked for removal and already excluded. In simulation mode every such
group counts as valid. -/
def simValidCount (pc : ProcessClass) (groups : List ProcessGroup) : Int :=
  ((groups.filter (fun pg =>
    pg.processClass == pc && !(pg.markedForRemoval && pg.excluded))).length : Int)

/-- Specification-side count for C3: the process groups of the class that are
not both marked for removal and already excluded and that carry no
`MissingProcesses` condition. Outside simulation mode these are the only groups
counted as valid. -/
def validNonMissingCount (pc : ProcessClass) (groups : List ProcessGroup) : Int :=
  ((groups.filter (fun pg =>
    pg.processClass == pc && !(pg.markedForRemoval && pg.excluded) &&
      pg.missingTimestamp.isNone)).length : Int)

/-- C2: for every combination of integer inputs, `getAllowedExclusions` returns
exactly `max 0 (validProcesses + faultTolerance - desiredProcessCount -
ongoingExclusions)`; in particular its result is never negative. -/
theorem getAllowedExclusions_eq_max (v d o f : Int) :
    getAllowedExclusions v d o f = max 0 (v + f - d - o) ∧
      0 ≤ getAllowedExclusions v d o f := by
  unfold getAllowedExclusions
  dsimp only
  constructor
  · split <;> omega
  · split <;> omega

theorem classMissingScan_sim (pc : ProcessClass) (now : Int) :
    ∀ gs : List ProcessGroup,
      classMissingScan pc true now gs = ([], simValidCount pc gs, true) := by
  intro gs
  induction gs with
  | nil => rfl
  | cons pg rest ih =>
    cases h1 : (pg.processClass == pc) <;>
      cases h2 : pg.markedForRemoval <;>
        cases h3 : pg.excluded <;>
          cases hts : pg.missingTimestamp <;>
            simp [classMissingScan, ih, simValidCount, h1, h2, h3, hts, bne]

/-- C9: in simulation mode the missing-process conditions are ignored
entirely: every process group of the class that is not both marked for removal
and excluded counts toward `validProcesses`, the returned missing-process list
is empty, and the grace-window blocking (allowed = 0 with a non-empty missing
list) can never trigger. -/
theorem allowedExclusions_simulation (cluster : Cluster) (pc : ProcessClass)
    (d o now : Int) :
    getAllowedExclusionsAndMissingProcesses cluster pc d o true now =
      (getAllowedExclusions (simValidCount pc cluster.processGroups) d o
        cluster.desiredFaultTolerance, []) := by
  unfold getAllowedExclusionsAndMissingProcesses
  rw [classMissingScan_sim]
  simp

theorem classMissingScan_flag_cons_false (pc : ProcessClass) (inSimulation : Bool)
    (now : Int) (pg : ProcessGroup) (rest : List ProcessGroup)
    (h : (classMissingScan pc inSimulation now rest).2.2 = false) :
    (classMissingScan pc inSimulation now (pg :: rest)).2.2 = false := by
  cases inSimulation <;>
    cases h1 : (pg.processClass == pc) <;>
      cases h2 : pg.markedForRemoval <;>
        cases h3 : pg.excluded <;>
          cases hts : pg.missingTimestamp <;>
            simp [classMissingScan, h1, h2, h3, hts, bne, h]

theorem classMissingScan_blocked (pc : ProcessClass) (now : Int) :
    ∀ gs : List ProcessGroup,
      (∃ pg ∈ gs, pg.processClass = pc ∧
        (pg.markedForRemoval && pg.excluded) = false ∧
        ∃ ts, pg.missingTimestamp = some ts ∧ now - ts < ignoreMissingProcessDuration) →
      (classMissingScan pc false now gs).2.2 = false := by
  intro gs
  induction gs with
  | nil => rintro ⟨pg, hmem, _⟩; cases hmem
  | cons pg rest ih =>
    rintro ⟨pg', hmem, hclass, hskip, ts, hts, hfresh⟩
    rcases List.mem_cons.mp hmem with heq | hmem'
    · subst heq
      have hc : (pg'.processClass == pc) = true := by simp [hclass]
      simp only [classMissingScan, hc, bne, Bool.not_true, hskip, hts]
      simp [hfresh]
    · exact classMissingScan_flag_cons_false pc false now pg rest
        (ih ⟨pg', hmem', hclass, hskip, ts, hts, hfresh⟩)

theorem classMissingScan_stale (pc : ProcessClass) (now : Int) :
    ∀ gs : List ProcessGroup,
      (∀ pg ∈ gs, pg.processClass = pc →
        (pg.markedForRemoval && pg.excluded) = false →
        ∀ ts, pg.missingTimestamp = some ts → ignoreMissingProcessDuration ≤ now - ts) →
      (classMissingScan pc false now gs).2.2 = true ∧
        (classMissingScan pc false now gs).2.1 = validNonMissingCount pc gs := by
  intro gs
  induction gs with
  | nil => intro _; exact ⟨rfl, rfl⟩
  | cons pg rest ih =>
    intro h
    have ihr := ih (fun pg' hmem => h pg' (List.mem_cons_of_mem _ hmem))
    cases h1 : (pg.processClass == pc)
    · cases hts : pg.missingTimestamp <;>
        simp [classMissingScan, validNonMissingCount, h1, hts, bne, ihr.1, ihr.2]
    · have hcls : pg.processClass = pc := by simpa using h1
      cases h2 : pg.markedForRemoval <;> cases h3 : pg.excluded <;>
        cases hts : pg.missingTimestamp with
        | none =>
          simp [classMissingScan, validNonMissingCount, h1, h2, h3, hts, bne,
            ihr.1, ihr.2]
        | some ts =>
          first
          | (simp [classMissingScan, validNonMissingCount, h1, h2, h3, hts, bne,
              ihr.1, ihr.2]
             done)
          | (have hstale := h pg (List.mem_cons_self _ _) hcls (by simp [h2, h3]) ts hts
             simp [classMissingScan, validNonMissingCount, h1, h2, h3, hts, bne,
               ihr.1, ihr.2, not_lt.mpr hstale])

/-- C3 (amended): outside simulation mode, if at least one process group of the
class that is not both marked for removal and already flagged excluded carries
a `MissingProcesses` condition younger than the 5-minute grace window, the
allowed-exclusion count for the class is exactly 0 this pass; when every such
missing condition is at least as old as the grace window, nothing blocks and
the stale-missing groups are simply not counted in `validProcesses`. -/
theorem missingGraceWindow_blocks (cluster : Cluster) (pc : ProcessClass)
    (d o now : Int) :
    ((∃ pg ∈ cluster.processGroups, pg.processClass = pc ∧
        (pg.markedForRemoval && pg.excluded) = false ∧
        ∃ ts, pg.missingTimestamp = some ts ∧ now - ts < ignoreMissingProcessDuration) →
      (getAllowedExclusionsAndMissingProcesses cluster pc d o false now).1 = 0) ∧
    ((∀ pg ∈ cluster.processGroups, pg.processClass = pc →
        (pg.markedForRemoval && pg.excluded) = false →
        ∀ ts, pg.missingTimestamp = some ts → ignoreMissingProcessDuration ≤ now - ts) →
      (getAllowedExclusionsAndMissingProcesses cluster pc d o false now).1 =
        getAllowedExclusions (validNonMissingCount pc cluster.processGroups) d o
          cluster.desiredFaultTolerance) := by
  constructor
  · intro h
    have hb := classMissingScan_blocked pc now cluster.processGroups h
    simp [getAllowedExclusionsAndMissingProcesses, hb]
  · intro h
    have hs := classMissingScan_stale pc now cluster.processGroups h
    simp [getAllowedExclusionsAndMissingProcesses, hs.1, hs.2]

/-- Cluster exhibiting the corner the literal C3 misses: its only storage
group is both marked for removal and already excluded, so the scan skips it
even though it carries a fresh `MissingProcesses` condition. -/
def clusterMissingSkip : Cluster :=
  ⟨[⟨"storage-9", .storage, [], "locality-storage-9", true, true, some 0⟩],
    false, 1, false⟩

/-- C3 (counterexample): in `clusterMissingSkip` a storage group carries a
`MissingProcesses` condition well inside the 5-minute grace window, yet the
allowed-exclusion count for the storage class is 1, not 0, because the group is
marked for removal and already excluded and is therefore skipped by the scan. -/
theorem missingGraceWindow_claim_fails :
    (∃ pg ∈ clusterMissingSkip.processGroups, pg.processClass = .storage ∧
      pg.missingTimestamp = some 0 ∧ (0 : Int) - 0 < ignoreMissingProcessDuration) ∧
    (getAllowedExclusionsAndMissingProcesses clusterMissingSkip .storage 0 0 false 0).1 = 1 := by
  constructor
  · exact ⟨_, List.mem_cons_self _ _, rfl, rfl, by norm_num [ignoreMissingProcessDuration]⟩
  · rfl

/-- Fresh-missing cluster used as the concrete instance for the C3 witness. -/
def clusterMissingFresh : Cluster :=
  ⟨[⟨"storage-1", .storage, ["10.0.0.1"], "locality-storage-1", false, false, some 0⟩],
    false, 1, false⟩

theorem missingGraceWindow_blocks_witness :
    (getAllowedExclusionsAndMissingProcesses clusterMissingFresh .storage 3 0 false 10).1 = 0 :=
  (missingGraceWindow_blocks clusterMissingFresh .storage 3 0 10).1
    ⟨_, List.mem_cons_self _ _, rfl, rfl, 0, rfl,
      by norm_num [ignoreMissingProcessDuration]⟩

/-- Entry for a process group that should be excluded together with the
addresses passed to the exclude call (embedding of `excludeEntry`). An address
is the `String()` form of a `ProcessAddress`; in locality mode it is the
group's exclusion string. -/
structure ExcludeEntry where
  processGroupID : String
  addresses : List String
deriving DecidableEq, Repr

/-- Recursion over the process groups performed by `getProcessesToExclude`.
Returns the candidate entries tagged with their process class (in discovery
order), one process-class tag per ongoing exclusion, and the process-group IDs
to add to the pending-for-exclusion map. `exclusionSet` is the cluster-reported
exclusion list (string forms). -/
def getProcessesToExcludeRec (useLocalities : Bool) (exclusionSet pendingExclusions : List String) :
    List ProcessGroup → List (ProcessClass × ExcludeEntry) × List ProcessClass × List String
  | [] => ([], [], [])
  | pg :: rest =>
    let res := getProcessesToExcludeRec useLocalities exclusionSet pendingExclusions rest
    if pg.processClass == ProcessClass.test then res
    else if !pg.markedForRemoval then res
    else if pg.excluded then res
    else if exclusionSet.contains pg.exclusionString then
      (res.1, pg.processClass :: res.2.1, res.2.2)
    else
      let upd := if pendingExclusions.contains pg.processGroupID then res.2.2
        else pg.processGroupID :: res.2.2
      if useLocalities then
        ((pg.processClass, ⟨pg.processGroupID, [pg.exclusionString]⟩) :: res.1, res.2.1, upd)
      else
        let remainingAddresses := pg.addresses.filter (fun a => !exclusionSet.contains a)
        let cands := if remainingAddresses.isEmpty then res.1
          else (pg.processClass, ⟨pg.processGroupID, remainingAddresses⟩) :: res.1
        let ongoing := if pg.addresses.all (fun a => exclusionSet.contains a) then
            pg.processClass :: res.2.1
          else res.2.1
        (cands, ongoing, upd)

/-- Embedding of `getProcessesToExclude` (controllers/exclude_processes.go). -/
def getProcessesToExclude (exclusions : List String) (cluster : Cluster)
    (pendingExclusions : List String) :
    List (ProcessClass × ExcludeEntry) × List ProcessClass × List String :=
  getProcessesToExcludeRec cluster.useLocalitiesForExclusion exclusions pendingExclusions
    cluster.processGroups

theorem getProcessesToExcludeRec_sound (useLocalities : Bool)
    (exclusionSet pendingExclusions : List String) (pc : ProcessClass) (e : ExcludeEntry) :
    ∀ gs : List ProcessGroup,
      (pc, e) ∈ (getProcessesToExcludeRec useLocalities exclusionSet pendingExclusions gs).1 →
      ∃ pg ∈ gs, pg.processGroupID = e.processGroupID ∧ pg.processClass = pc ∧
        pg.markedForRemoval = true ∧ pg.excluded = false ∧
        exclusionSet.contains pg.exclusionString = false ∧
        ∀ a ∈ e.addresses, exclusionSet.contains a = false := by
  intro gs
  induction gs with
  | nil => intro hmem; cases hmem
  | cons pg rest ih =>
    intro hmem
    simp only [getProcessesToExcludeRec] at hmem
    by_cases hc1 : (pg.processClass == ProcessClass.test) = true
    · rw [if_pos hc1] at hmem
      obtain ⟨pg', hpg', hrest⟩ := ih hmem
      exact ⟨pg', List.mem_cons_of_mem _ hpg', hrest⟩
    · rw [if_neg hc1] at hmem
      by_cases hc2 : (!pg.markedForRemoval) = true
      · rw [if_pos hc2] at hmem
        obtain ⟨pg', hpg', hrest⟩ := ih hmem
        exact ⟨pg', List.mem_cons_of_mem _ hpg', hrest⟩
      · rw [if_neg hc2] at hmem
        by_cases hc3 : pg.excluded = true
        · rw [if_pos hc3] at hmem
          obtain ⟨pg', hpg', hrest⟩ := ih hmem
          exact ⟨pg', List.mem_cons_of_mem _ hpg', hrest⟩
        · rw [if_neg hc3] at hmem
          by_cases hc4 : exclusionSet.contains pg.exclusionString = true
          · rw [if_pos hc4] at hmem
            obtain ⟨pg', hpg', hrest⟩ := ih hmem
            exact ⟨pg', List.mem_cons_of_mem _ hpg', hrest⟩
          · rw [if_neg hc4] at hmem
            have hmarked : pg.markedForRemoval = true := by
              revert hc2; cases pg.markedForRemoval <;> simp
            have hexcl : pg.excluded = false := by
              revert hc3; cases pg.excluded <;> simp
            have hstr : exclusionSet.contains pg.exclusionString = false := by
              revert hc4; cases exclusionSet.contains pg.exclusionString <;> simp
            by_cases hloc : useLocalities = true
            · rw [if_pos hloc] at hmem
              rcases List.mem_cons.mp hmem with heq | hmem'
              · obtain ⟨hpc, he⟩ := Prod.mk.injEq .. ▸ heq
                subst he
                refine ⟨pg, List.mem_cons_self _ _, rfl, hpc.symm, hmarked, hexcl, hstr, ?_⟩
                intro a ha
                simp only [List.mem_singleton] at ha
                rw [ha]; exact hstr
              · obtain ⟨pg', hpg', hrest⟩ := ih hmem'
                exact ⟨pg', List.mem_cons_of_mem _ hpg', hrest⟩
            · rw [if_neg hloc] at hmem
              by_cases hemp :
                  (pg.addresses.filter (fun a => !exclusionSet.contains a)).isEmpty = true
              · rw [if_pos hemp] at hmem
                obtain ⟨pg', hpg', hrest⟩ := ih hmem
                exact ⟨pg', List.mem_cons_of_mem _ hpg', hrest⟩
              · rw [if_neg hemp] at hmem
                rcases List.mem_cons.mp hmem with heq | hmem'
                · obtain ⟨hpc, he⟩ := Prod.mk.injEq .. ▸ heq
                  subst he
                  refine ⟨pg, List.mem_cons_self _ _, rfl, hpc.symm, hmarked, hexcl, hstr, ?_⟩
                  intro a ha
                  simp only [List.mem_filter] at ha
                  have hcont := ha.2
                  revert hcont
                  cases hct : exclusionSet.contains a <;> simp [hct]
                · obtain ⟨pg', hpg', hrest⟩ := ih hmem'
                  exact ⟨pg', List.mem_cons_of_mem _ hpg', hrest⟩

/-- C4: every candidate computed by `getProcessesToExclude` corresponds to a
process group that, at the start of the pass, is marked for removal, is not
flagged excluded, whose exclusion string is not in the cluster-reported
exclusion list, and whose candidate addresses are all absent from that list —
so no group is excluded twice for the same removal. -/
theorem processesToExclude_sound (exclusions : List String) (cluster : Cluster)
    (pendingExclusions : List String) (pc : ProcessClass) (e : ExcludeEntry)
    (hmem : (pc, e) ∈ (getProcessesToExclude exclusions cluster pendingExclusions).1) :
    ∃ pg ∈ cluster.processGroups, pg.processGroupID = e.processGroupID ∧
      pg.processClass = pc ∧ pg.markedForRemoval = true ∧ pg.excluded = false ∧
      exclusions.contains pg.exclusionString = false ∧
      ∀ a ∈ e.addresses, exclusions.contains a = false :=
  getProcessesToExcludeRec_sound cluster.useLocalitiesForExclusion exclusions
    pendingExclusions pc e cluster.processGroups hmem

/-- Requeue signal returned by a sub-reconciler. `delaySeconds = 0` means no
explicit delay was requested; `hasError` is true when `curError` is set. -/
structure Requeue where
  delayedRequeue : Bool
  delaySeconds : Int
  hasError : Bool
  message : String
deriving DecidableEq, Repr

/-- The parts of the machine-readable database status that the exclusion
sub-reconciler reads: the coordinator process-group IDs (as computed by
`GetCoordinatorsFromStatus`) and the recovery-state freshness counter. -/
structure FdbStatus where
  coordinatorIDs : List String
  secondsSinceLastRecovered : Int
deriving DecidableEq, Repr

/-- Oracle results of every external call the pass makes. Error flags are true
when the corresponding call fails; value fields are the results of successful
calls. `now` is the current Unix time and `recoverySafe` is the verdict of
`CanSafelyExcludeProcessesWithRecoveryState`. -/
structure Env where
  adminClientErr : Bool
  exclusionsErr : Bool
  exclusions : List String
  pendingErr : Bool
  pending : List String
  updatePendingErr : Bool
  recoverySafe : Bool
  desiredErr : Bool
  desiredProcesses : ProcessClass → Int
  readyErr : Bool
  ready : List String
  updateReadyErr : Bool
  takeLockErr : Bool
  pendingAllErr : Bool
  readyAllErr : Bool
  readyAll : List String
  allReadyErr : Bool
  allReady : List String
  coordinationAddressesErr : Bool
  coordinationAddresses : List String
  excludeErr : Bool
  changeCoordinatorsErr : Bool
  updateOrApplyErr : Bool
  inSimulation : Bool
  now : Int

/-- Pending-for-exclusion entries visible to the pass: fetched in global
synchronization mode, empty otherwise. -/
def pendingList (env : Env) (cluster : Cluster) : List String :=
  if cluster.syncGlobal then env.pending else []

/-- The candidate entries of the pass, tagged by process class. -/
def exclusionCandidates (env : Env) (cluster : Cluster) :
    List (ProcessClass × ExcludeEntry) :=
  (getProcessesToExclude env.exclusions cluster (pendingList env cluster)).1

/-- Candidates of one process class, in discovery order
(`fdbProcessesToExcludeByClass[processClass]`). -/
def byClassCandidates (env : Env) (cluster : Cluster) (pc : ProcessClass) :
    List ExcludeEntry :=
  ((exclusionCandidates env cluster).filter (fun p => p.1 == pc)).map (·.2)

/-- Number of ongoing exclusions of one process class
(`ongoingExclusionsByClass[processClass]`). -/
def ongoingByClass (env : Env) (cluster : Cluster) (pc : ProcessClass) : Int :=
  (((getProcessesToExclude env.exclusions cluster (pendingList env cluster)).2.1).count pc : Int)

/-- Allowed-exclusion count the class loop computes for one process class. -/
def loopAllowed (env : Env) (cluster : Cluster) (pc : ProcessClass) : Int :=
  (getAllowedExclusionsAndMissingProcesses cluster pc (env.desiredProcesses pc)
    (ongoingByClass env cluster pc) env.inSimulation env.now).1

/-- Mutable state of the per-class loop: the accumulated addresses passed to
the exclude call, the `transactionSystemExclusionAllowed` flag, the
`allProcessesExcluded` flag, and the ready-for-exclusion entries to add. -/
structure LoopState where
  toExclude : List String
  txAllowed : Bool
  allExcluded : Bool
  updateReady : List String
deriving DecidableEq, Repr

/-- One iteration of the class loop of `excludeProcesses.reconcile`. -/
def excludeLoopStep (env : Env) (cluster : Cluster) (st : LoopState)
    (pc : ProcessClass) : LoopState :=
  let processesToExclude := byClassCandidates env cluster pc
  let allowedExclusions := loopAllowed env cluster pc
  if allowedExclusions ≤ 0 then
    { st with txAllowed := st.txAllowed && !pc.isTransaction, allExcluded := false }
  else
    let st1 := if (processesToExclude.length : Int) > allowedExclusions then
        { st with allExcluded := false }
      else st
    let bound := min allowedExclusions (processesToExclude.length : Int)
    let taken := processesToExclude.take bound.toNat
    let readyExclusions := if cluster.syncGlobal then env.ready else []
    { st1 with
      toExclude := st1.toExclude ++ (taken.map (·.addresses)).flatten,
      updateReady := st1.updateReady ++
        ((taken.filter (fun e => !readyExclusions.contains e.processGroupID)).map
          (·.processGroupID)) }

/-- The classes the loop visits: those with at least one candidate, in the
fixed enumeration order standing in for Go's unspecified map iteration order.
No property proved below depends on the order chosen. -/
def loopClasses (env : Env) (cluster : Cluster) : List ProcessClass :=
  ProcessClass.all.filter (fun pc => !(byClassCandidates env cluster pc).isEmpty)

/-- The class loop of `excludeProcesses.reconcile`, started from the initial
flags (`transactionSystemExclusionAllowed = true`, `allProcessesExcluded =
true`). -/
def runExcludeLoop (env : Env) (cluster : Cluster) : LoopState :=
  (loopClasses env cluster).foldl (excludeLoopStep env cluster) ⟨[], true, true, []⟩

/-- Exclusion strings of the process groups that currently serve as
coordinators (`coordinatorsExclusionString`). -/
def coordinatorExclusionStrings (cluster : Cluster) (status : FdbStatus) : List String :=
  (cluster.processGroups.filter
    (fun pg => status.coordinatorIDs.contains pg.processGroupID)).map (·.exclusionString)

/-- Addresses of the process groups that currently serve as coordinators
(`coordinatorsAddress`). -/
def coordinatorAddresses (cluster : Cluster) (status : FdbStatus) : List String :=
  ((cluster.processGroups.filter
    (fun pg => status.coordinatorIDs.contains pg.processGroupID)).map (·.addresses)).flatten

/-- State carried from the pre-phase of the pass into the exclude call: the
addresses to exclude, the `allProcessesExcluded` flag and the coordinator
lookup sets. -/
structure PreState where
  toExclude : List String
  allProcessesExcluded : Bool
  coordinatorsExclusionString : List String
  coordinatorsAddress : List String
deriving DecidableEq, Repr

/-- Requeue carrying an error (`&requeue{curError: err, delayedRequeue: d}`). -/
def errRequeue (delayed : Bool) : Requeue := ⟨delayed, 0, true, ""⟩

def msgWaitNewProcesses : String :=
  "more exclusions needed but not allowed, have to wait for new processes to come up"

def msgWaitTransactionSystem : String :=
  "more exclusions needed but not allowed, have to wait until new processes for the transaction system are up to reduce number of recoveries."

def msgAdditionalProcesses : String := "Additional processes must be excluded"

/-- Pre-phase of `excludeProcesses.reconcile`: everything before the exclude
call. Returns `.error none` for an early `nil` return, `.error (some rq)` for
an early requeue, and `.ok` with the state for the exclude call. Every early
return leaves the status untouched and issues no exclude call. -/
def reconcilePre (env : Env) (cluster : Cluster) (status : FdbStatus) :
    Except (Option Requeue) PreState :=
  if env.adminClientErr then .error (some (errRequeue false))
  else if env.exclusionsErr then .error (some (errRequeue true))
  else if cluster.syncGlobal && env.pendingErr then .error (some (errRequeue true))
  else if (exclusionCandidates env cluster).isEmpty then .error none
  else if cluster.syncGlobal && env.updatePendingErr then .error (some (errRequeue true))
  else if !env.recoverySafe then .error (some ⟨true, 10, true, ""⟩)
  else if env.desiredErr then .error (some (errRequeue true))
  else if cluster.syncGlobal && env.readyErr then .error (some (errRequeue true))
  else
    let final := runExcludeLoop env cluster
    if final.toExclude.isEmpty then .error (some ⟨true, 0, false, msgWaitNewProcesses⟩)
    else if !final.txAllowed then .error (some ⟨true, 0, false, msgWaitTransactionSystem⟩)
    else if cluster.syncGlobal && env.updateReadyErr then .error (some (errRequeue true))
    else if env.takeLockErr then .error (some (errRequeue true))
    else if cluster.syncGlobal then
      if env.pendingAllErr then .error (some (errRequeue true))
      else if env.readyAllErr then .error (some (errRequeue true))
      else if env.allReadyErr then .error (some (errRequeue true))
      else if env.coordinationAddressesErr then .error (some (errRequeue true))
      else .ok ⟨env.coordinationAddresses,
        (if env.allReady.length ≠ env.readyAll.length then false else final.allExcluded),
        coordinatorExclusionStrings cluster status,
        coordinatorAddresses cluster status⟩
    else .ok ⟨final.toExclude, final.allExcluded,
      coordinatorExclusionStrings cluster status,
      coordinatorAddresses cluster status⟩

/-- Outcome of one pass: the requeue returned (`none` for a `nil` return),
the addresses passed to the exclude call when it was issued, whether
`ChangeCoordinators` was invoked, and the status object as left behind by the
pass. -/
structure ReconcileOutcome where
  requeue : Option Requeue
  excludedProcesses : Option (List String)
  coordinatorsChanged : Bool
  finalStatus : FdbStatus
deriving DecidableEq, Repr

/-- Tail of `excludeProcesses.reconcile`: the exclude call and everything
after it. `SecondsSinceLastRecovered` is reset to 0 immediately after the
call, before the call's error is inspected. -/
def reconcileTail (env : Env) (status : FdbStatus) (pre : PreState) :
    ReconcileOutcome :=
  let newStatus := { status with secondsSinceLastRecovered := 0 }
  if env.excludeErr then ⟨some (errRequeue true), some pre.toExclude, false, newStatus⟩
  else
    let coordinatorExcluded := pre.toExclude.any (fun a =>
      pre.coordinatorsAddress.contains a || pre.coordinatorsExclusionString.contains a)
    if coordinatorExcluded && env.changeCoordinatorsErr then
      ⟨some (errRequeue true), some pre.toExclude, true, newStatus⟩
    else if coordinatorExcluded && env.updateOrApplyErr then
      ⟨some (errRequeue true), some pre.toExclude, true, newStatus⟩
    else if !pre.allProcessesExcluded then
      ⟨some ⟨true, 300, false, msgAdditionalProcesses⟩, some pre.toExclude,
        coordinatorExcluded, newStatus⟩
    else ⟨none, some pre.toExclude, coordinatorExcluded, newStatus⟩

/-- Embedding of `excludeProcesses.reconcile` (controllers/exclude_processes.go)
as the composition of the pre-phase and the tail. -/
def reconcile (env : Env) (cluster : Cluster) (status : FdbStatus) :
    ReconcileOutcome :=
  match reconcilePre env cluster status with
  | .error rq => ⟨rq, none, false, status⟩
  | .ok pre => reconcileTail env status pre

/-- C6: in every pass whose exclusion candidate set is non-empty and that
reaches the recovery-state precheck (the earlier external calls succeed), a
failing precheck makes the pass return a delayed requeue carrying the error
with a delay of exactly 10 seconds, with no exclude call issued and the status
untouched. -/
theorem recoveryCheckFailure_delays (env : Env) (cluster : Cluster) (status : FdbStatus)
    (h1 : env.adminClientErr = false) (h2 : env.exclusionsErr = false)
    (h3 : (cluster.syncGlobal && env.pendingErr) = false)
    (h4 : (exclusionCandidates env cluster).isEmpty = false)
    (h5 : (cluster.syncGlobal && env.updatePendingErr) = false)
    (h6 : env.recoverySafe = false) :
    reconcile env cluster status = ⟨some ⟨true, 10, true, ""⟩, none, false, status⟩ := by
  unfold reconcile reconcilePre
  simp [h1, h2, h3, h4, h5, h6]

/-- Environment in which every external call succeeds and nothing is pending,
ready or excluded yet; concrete instances below adjust single fields. -/
def baseEnv : Env where
  adminClientErr := false
  exclusionsErr := false
  exclusions := []
  pendingErr := false
  pending := []
  updatePendingErr := false
  recoverySafe := true
  desiredErr := false
  desiredProcesses := fun _ => 0
  readyErr := false
  ready := []
  updateReadyErr := false
  takeLockErr := false
  pendingAllErr := false
  readyAllErr := false
  readyAll := []
  allReadyErr := false
  allReady := []
  coordinationAddressesErr := false
  coordinationAddresses := []
  excludeErr := false
  changeCoordinatorsErr := false
  updateOrApplyErr := false
  inSimulation := false
  now := 0

/-- Status used by the concrete instances: no coordinators, last recovery 100
seconds ago. -/
def statusStart : FdbStatus := ⟨[], 100⟩

/-- Two-group storage cluster with one removal-marked group, used by the C6
witness. -/
def clusterOneStorage : Cluster :=
  ⟨[⟨"storage-1", .storage, ["10.0.0.1"], "locality-storage-1", true, false, none⟩,
    ⟨"storage-2", .storage, ["10.0.0.2"], "locality-storage-2", false, false, none⟩],
    false, 0, false⟩

/-- Environment whose recovery-state precheck fails. -/
def envRecoveryStale : Env := { baseEnv with recoverySafe := false }

theorem recoveryCheckFailure_delays_witness :
    reconcile envRecoveryStale clusterOneStorage statusStart =
      ⟨some ⟨true, 10, true, ""⟩, none, false, statusStart⟩ :=
  recoveryCheckFailure_delays envRecoveryStale clusterOneStorage statusStart
    rfl rfl rfl rfl rfl rfl

/-- Single-candidate storage cluster used by the C4 witness. -/
def clusterMarked : Cluster :=
  ⟨[⟨"storage-1", .storage, ["10.0.0.1"], "locality-storage-1", true, false, none⟩],
    false, 1, false⟩

theorem processesToExclude_sound_witness :
    ∃ pg ∈ clusterMarked.processGroups,
      pg.processGroupID = (ExcludeEntry.mk "storage-1" ["10.0.0.1"]).processGroupID ∧
      pg.processClass = ProcessClass.storage ∧ pg.markedForRemoval = true ∧
      pg.excluded = false ∧
      (List.contains ([] : List String) pg.exclusionString) = false ∧
      ∀ a ∈ (ExcludeEntry.mk "storage-1" ["10.0.0.1"]).addresses,
        (List.contains ([] : List String) a) = false :=
  processesToExclude_sound [] clusterMarked [] ProcessClass.storage
    (ExcludeEntry.mk "storage-1" ["10.0.0.1"]) (by decide)

theorem excludeLoopStep_txAllowed_mono (env : Env) (cluster : Cluster)
    (st : LoopState) (pc : ProcessClass)
    (h : (excludeLoopStep env cluster st pc).txAllowed = true) :
    st.txAllowed = true := by
  simp only [excludeLoopStep] at h
  split at h
  · simp only [Bool.and_eq_true] at h
    exact h.1
  · split at h <;> simpa using h

theorem foldl_txAllowed_mono (env : Env) (cluster : Cluster) :
    ∀ (l : List ProcessClass) (st : LoopState),
      ((l.foldl (excludeLoopStep env cluster) st).txAllowed = true) →
      st.txAllowed = true := by
  intro l
  induction l with
  | nil => intro st h; exact h
  | cons a rest ih =>
    intro st h
    exact excludeLoopStep_txAllowed_mono env cluster st a (ih _ h)

theorem foldl_txAllowed_false (env : Env) (cluster : Cluster) :
    ∀ (l : List ProcessClass) (st : LoopState) (pc : ProcessClass), pc ∈ l →
      pc.isTransaction = true → loopAllowed env cluster pc ≤ 0 →
      (l.foldl (excludeLoopStep env cluster) st).txAllowed = false := by
  intro l
  induction l with
  | nil => intro st pc hmem; cases hmem
  | cons a rest ih =>
    intro st pc hmem htx hle
    rcases List.mem_cons.mp hmem with heq | hmem'
    · subst heq
      have hstep : (excludeLoopStep env cluster st pc).txAllowed = false := by
        simp only [excludeLoopStep]
        rw [if_pos (by exact hle : loopAllowed env cluster pc ≤ 0)]
        simp [htx]
      cases hres : ((rest.foldl (excludeLoopStep env cluster)
          (excludeLoopStep env cluster st pc)).txAllowed)
      · exact hres
      · exact absurd (foldl_txAllowed_mono env cluster rest _ hres)
          (by simp [hstep])
    · exact ih _ pc hmem' htx hle

theorem mem_processClass_all (pc : ProcessClass) : pc ∈ ProcessClass.all := by
  cases pc <;> simp [ProcessClass.all]

/-- C1 (amended): whenever the pass reaches the class loop and some
transaction-system class has candidates but an allowed-exclusion count of at
most zero, the operator suppresses the exclusion for the entire pass: no
exclude call is issued — the non-transaction (e.g. storage) candidates are not
excluded either — and the pass returns a delayed requeue without error. -/
theorem transactionClassBlocked_suppresses_pass (env : Env) (cluster : Cluster)
    (status : FdbStatus)
    (h1 : env.adminClientErr = false) (h2 : env.exclusionsErr = false)
    (h3 : (cluster.syncGlobal && env.pendingErr) = false)
    (h4 : (exclusionCandidates env cluster).isEmpty = false)
    (h5 : (cluster.syncGlobal && env.updatePendingErr) = false)
    (h6 : env.recoverySafe = true) (h7 : env.desiredErr = false)
    (h8 : (cluster.syncGlobal && env.readyErr) = false)
    (hx : ∃ pc : ProcessClass, pc.isTransaction = true ∧
      (byClassCandidates env cluster pc).isEmpty = false ∧
      loopAllowed env cluster pc ≤ 0) :
    (reconcile env cluster status).excludedProcesses = none ∧
      ∃ rq, (reconcile env cluster status).requeue = some rq ∧
        rq.delayedRequeue = true ∧ rq.hasError = false ∧ rq.delaySeconds = 0 := by
  obtain ⟨pc, htx, hcand, hle⟩ := hx
  have hmem : pc ∈ loopClasses env cluster :=
    List.mem_filter.mpr ⟨mem_processClass_all pc, by simp [hcand]⟩
  have hfalse : (runExcludeLoop env cluster).txAllowed = false :=
    foldl_txAllowed_false env cluster (loopClasses env cluster) _ pc hmem htx hle
  unfold reconcile reconcilePre
  simp only [h1, h2, h3, h4, h5, h6, h7, h8, Bool.false_eq_true, if_false,
    Bool.not_true, Bool.not_false, if_true]
  by_cases hte : (runExcludeLoop env cluster).toExclude.isEmpty = true
  · simp [hte, hfalse]
  · simp [hte, hfalse]

/-- Cluster for the C1 scenario: one removal-marked log group with allowed
count 0 and one removal-marked storage group within its allowed count. -/
def clusterLogStorage : Cluster :=
  ⟨[⟨"log-1", .log, ["10.1.0.1"], "locality-log-1", true, false, none⟩,
    ⟨"storage-1", .storage, ["10.0.0.1"], "locality-storage-1", true, false, none⟩,
    ⟨"storage-2", .storage, ["10.0.0.2"], "locality-storage-2", false, false, none⟩],
    false, 0, false⟩

/-- Environment for the C1 scenario: one log and one storage process desired. -/
def envLogStorage : Env :=
  { baseEnv with desiredProcesses := fun pc => match pc with
      | .log => 1
      | .storage => 1
      | _ => 0 }

/-- C1 (counterexample): in the scenario the claim describes — the log class
(transaction-system) has a candidate but allowed count 0, while the storage
class has a candidate within its allowed count 1 — the pass issues no exclude
call at all: the storage candidate is not excluded either, and the pass
returns the wait-for-transaction-system requeue. -/
theorem storageNotExcluded_when_txBlocked :
    loopAllowed envLogStorage clusterLogStorage .log = 0 ∧
    (byClassCandidates envLogStorage clusterLogStorage .log).isEmpty = false ∧
    loopAllowed envLogStorage clusterLogStorage .storage = 1 ∧
    byClassCandidates envLogStorage clusterLogStorage .storage =
      [⟨"storage-1", ["10.0.0.1"]⟩] ∧
    (reconcile envLogStorage clusterLogStorage statusStart).excludedProcesses = none ∧
    (reconcile envLogStorage clusterLogStorage statusStart).requeue =
      some ⟨true, 0, false, msgWaitTransactionSystem⟩ :=
  ⟨rfl, rfl, rfl, rfl, rfl, rfl⟩

theorem transactionClassBlocked_suppresses_pass_witness :
    (reconcile envLogStorage clusterLogStorage statusStart).excludedProcesses = none ∧
      ∃ rq, (reconcile envLogStorage clusterLogStorage statusStart).requeue = some rq ∧
        rq.delayedRequeue = true ∧ rq.hasError = false ∧ rq.delaySeconds = 0 :=
  transactionClassBlocked_suppresses_pass envLogStorage clusterLogStorage statusStart
    rfl rfl rfl rfl rfl rfl rfl rfl ⟨.log, rfl, rfl, by decide⟩

/-- C5: in every pass that reaches the exclude call (pre-phase returns `.ok`),
when the call succeeds and at least one excluded address matches the
coordinator address set or the coordinator exclusion-string set, the
coordinator rotation (`ChangeCoordinators`) is invoked within the same pass. -/
theorem coordinatorExcluded_triggersRotation (env : Env) (cluster : Cluster)
    (status : FdbStatus) (pre : PreState)
    (hpre : reconcilePre env cluster status = .ok pre)
    (hsucc : env.excludeErr = false)
    (hmatch : ∃ a ∈ pre.toExclude, pre.coordinatorsAddress.contains a = true ∨
      pre.coordinatorsExclusionString.contains a = true) :
    (reconcile env cluster status).coordinatorsChanged = true := by
  unfold reconcile
  rw [hpre]
  unfold reconcileTail
  have hco : pre.toExclude.any (fun a =>
      pre.coordinatorsAddress.contains a || pre.coordinatorsExclusionString.contains a) = true := by
    rcases hmatch with ⟨a, ha, hc⟩
    exact List.any_eq_true.mpr ⟨a, ha, by
      rcases hc with h | h <;> simp at h <;> simp [h]⟩
  simp only [hsucc, Bool.false_eq_true, if_false, hco, Bool.true_and]
  split
  · rfl
  · split
    · rfl
    · split <;> rfl

/-- Cluster for the C5 witness: the removal-marked storage group is a
coordinator. -/
def clusterCoordinator : Cluster :=
  ⟨[⟨"storage-1", .storage, ["10.0.0.1"], "locality-storage-1", true, false, none⟩,
    ⟨"storage-2", .storage, ["10.0.0.2"], "locality-storage-2", false, false, none⟩],
    false, 1, false⟩

/-- Status for the C5 witness: `storage-1` serves as coordinator. -/
def statusCoordinator : FdbStatus := ⟨["storage-1"], 50⟩

/-- Environment for the C5 witness: one storage process desired. -/
def envCoordinator : Env :=
  { baseEnv with desiredProcesses := fun pc => match pc with
      | .storage => 1
      | _ => 0 }

theorem coordinatorExcluded_triggersRotation_witness :
    (reconcile envCoordinator clusterCoordinator statusCoordinator).coordinatorsChanged = true :=
  coordinatorExcluded_triggersRotation envCoordinator clusterCoordinator statusCoordinator
    ⟨["10.0.0.1"], true, ["locality-storage-1"], ["10.0.0.1"]⟩ rfl rfl
    ⟨"10.0.0.1", by decide, Or.inl (by decide)⟩

/-- Cluster for the C7 scenario: five storage groups, three marked for
removal, so `validProcesses = 5` and with `desiredCount = 5`,
`faultTolerance = 1`, `ongoingExclusions = 0` the allowed count is 1 and only
the first of the three candidates is excluded. -/
def clusterScenario7 : Cluster :=
  ⟨[⟨"storage-1", .storage, ["10.0.0.1"], "locality-storage-1", true, false, none⟩,
    ⟨"storage-2", .storage, ["10.0.0.2"], "locality-storage-2", true, false, none⟩,
    ⟨"storage-3", .storage, ["10.0.0.3"], "locality-storage-3", true, false, none⟩,
    ⟨"storage-4", .storage, ["10.0.0.4"], "locality-storage-4", false, false, none⟩,
    ⟨"storage-5", .storage, ["10.0.0.5"], "locality-storage-5", false, false, none⟩],
    false, 1, false⟩

/-- Environment for the C7 scenario: five storage processes desired. -/
def envScenario7 : Env :=
  { baseEnv with desiredProcesses := fun pc => match pc with
      | .storage => 5
      | _ => 0 }

/-- Environment for the C7 counterexample: same scenario, but the exclude
call itself fails. -/
def envScenario7Err : Env := { envScenario7 with excludeErr := true }

/-- C7 (counterexample): in the claim's own scenario (allowed = 1, three
candidates, one exclusion issued, two pending) but with the exclude call
failing, the pass returns the error requeue with no delay instead of the
claimed 5-minute delayed requeue, even though fewer than all desired
exclusions were processed in a pass that did issue an exclusion. -/
theorem partialExclusion_claim_fails :
    (reconcile envScenario7Err clusterScenario7 statusStart).excludedProcesses =
      some ["10.0.0.1"] ∧
    (runExcludeLoop envScenario7Err clusterScenario7).allExcluded = false ∧
    (reconcile envScenario7Err clusterScenario7 statusStart).requeue =
      some (errRequeue true) ∧
    (errRequeue true).delaySeconds ≠ 300 :=
  ⟨rfl, rfl, rfl, by decide⟩

/-- C7 (amended): when the pass issues an exclusion that succeeds, fewer than
all desired exclusions were processed, and the subsequent coordinator-change
and status-update steps do not error, the pass returns a delayed requeue with
a delay of exactly 5 minutes (300 seconds) rather than a tight retry loop. -/
theorem partialExclusion_requeues (env : Env) (cluster : Cluster)
    (status : FdbStatus) (pre : PreState)
    (hpre : reconcilePre env cluster status = .ok pre)
    (hall : pre.allProcessesExcluded = false)
    (hsucc : env.excludeErr = false)
    (hcc : env.changeCoordinatorsErr = false)
    (hup : env.updateOrApplyErr = false) :
    (reconcile env cluster status).requeue =
      some ⟨true, 300, false, msgAdditionalProcesses⟩ ∧
    (reconcile env cluster status).excludedProcesses = some pre.toExclude := by
  unfold reconcile
  rw [hpre]
  unfold reconcileTail
  simp [hsucc, hcc, hup, hall]

theorem partialExclusion_requeues_witness :
    (reconcile envScenario7 clusterScenario7 statusStart).requeue =
      some ⟨true, 300, false, msgAdditionalProcesses⟩ ∧
    (reconcile envScenario7 clusterScenario7 statusStart).excludedProcesses =
      some ["10.0.0.1"] :=
  partialExclusion_requeues envScenario7 clusterScenario7 statusStart
    ⟨["10.0.0.1"], false, [], []⟩ rfl rfl rfl rfl rfl

theorem reconcileTail_finalStatus (env : Env) (status : FdbStatus) (pre : PreState) :
    (reconcileTail env status pre).finalStatus =
      { status with secondsSinceLastRecovered := 0 } := by
  cases he : env.excludeErr <;>
    cases hc : env.changeCoordinatorsErr <;>
      cases hu : env.updateOrApplyErr <;>
        cases ha : pre.allProcessesExcluded <;>
          simp [reconcileTail, he, hc, hu, ha] <;>
            split <;> rfl

/-- C10: whenever the pass issues the exclude call, the
`SecondsSinceLastRecovered` counter of the shared in-memory status is set to 0
for the remainder of the pass — also on the path where the call returns an
error. -/
theorem excludeCall_zeroesRecoveryCounter (env : Env) (cluster : Cluster)
    (status : FdbStatus) (addrs : List String)
    (h : (reconcile env cluster status).excludedProcesses = some addrs) :
    (reconcile env cluster status).finalStatus.secondsSinceLastRecovered = 0 := by
  unfold reconcile at h ⊢
  cases hpre : reconcilePre env cluster status with
  | error rq => rw [hpre] at h; simp at h
  | ok pre =>
    change (reconcileTail env status pre).finalStatus.secondsSinceLastRecovered = 0
    rw [reconcileTail_finalStatus]

theorem excludeCall_zeroesRecoveryCounter_witness :
    (reconcile envScenario7Err clusterScenario7 statusStart).finalStatus.secondsSinceLastRecovered = 0 :=
  excludeCall_zeroesRecoveryCounter envScenario7Err clusterScenario7 statusStart
    ["10.0.0.1"] rfl

/-- Result of looking up the database-client provider: either the configured
provider, or a Go panic carrying the panic message. -/
inductive ProviderResult (α : Type) where
  | provider (p : α)
  | panicked (msg : String)
deriving DecidableEq, Repr

/-- Embedding of `FoundationDBBackupReconciler.getDatabaseClientProvider`
(backup_controller.go). The Go panic is modelled as the distinguished
`panicked` result — not an error return, and no retry. -/
def getDatabaseClientProvider {α : Type} (databaseClientProvider : Option α) :
    ProviderResult α :=
  match databaseClientProvider with
  | some p => .provider p
  | none => .panicked "Backup reconciler does not have a DatabaseClientProvider defined"

/-- C8: when a database-client provider is configured,
`getDatabaseClientProvider` returns it unchanged; when none is configured it
panics immediately with the fixed message, rather than returning an error or
retrying. -/
theorem getDatabaseClientProvider_spec {α : Type} (p : α) :
    getDatabaseClientProvider (some p) = .provider p ∧
      getDatabaseClientProvider (none : Option α) =
        .panicked "Backup reconciler does not have a DatabaseClientProvider defined" :=
  ⟨rfl, rfl⟩

end FdbOperator
